import Mathlib

/-!
# Verification of the ntp-nostd NTP packet codec

Shallow embedding of `src/lib.rs` of the `ntp-nostd` crate: a decoder for
the fixed 48-byte NTP v3/v4 packet format, enumerated field codecs
(leap indicator, mode, stratum, kiss codes), a big-endian 32-bit
reconstruction helper, a client request builder, and the NTP-to-Unix
timestamp conversion.

Modelling conventions:
* Rust byte slices (`&[u8]`) become `List Nat`; each element stands for a
  `u8` value (below 256 for real inputs, though most lemmas do not need
  the bound because the decoder masks byte 0 itself).
* Machine integers become `Nat` (unsigned) or `Int` (for the `as i8`
  reinterpretation of poll and precision).  None of the arithmetic in the
  source can overflow `u32`/`u64` on byte-valued inputs, so no wraparound
  masking is needed except where noted.
* Fallible operations (iterator `next().unwrap()` exhaustion, the
  unreachable match arms of the LI and Mode conversions, and the checked
  `u32` subtraction in `get_unix_timestamp`, all of which abort in the
  Rust source) are modelled with `Option`, `none` standing for the abort.
-/

/-- Leap indicator, 2-bit field of byte 0 (`enum LI` in the source). -/
inductive LI
  | NoLeap
  | LastMinute61
  | LastMinute59
  | UnknownUnsync
deriving DecidableEq, Repr

/-- The Rust discriminant of each `LI` variant (`NoLeap = 0`, ...). -/
def LI.toU8 : LI → Nat
  | .NoLeap => 0
  | .LastMinute61 => 1
  | .LastMinute59 => 2
  | .UnknownUnsync => 3

/-- `impl From<u8> for LI`.  The source aborts on values above 3
(`panic` arm); this is modelled as `none`. -/
def LI.fromU8 (value : Nat) : Option LI :=
  match value with
  | 0 => some .NoLeap
  | 1 => some .LastMinute61
  | 2 => some .LastMinute59
  | 3 => some .UnknownUnsync
  | _ => none

/-- Association mode, 3-bit field of byte 0 (`enum Mode` in the source). -/
inductive Mode
  | Reserved
  | SymActive
  | SymPassive
  | Client
  | Server
  | Broadcast
  | NtpControl
  | ReservedPrivateUse
deriving DecidableEq, Repr

/-- The Rust discriminant of each `Mode` variant (`Reserved = 0`, ...). -/
def Mode.toU8 : Mode → Nat
  | .Reserved => 0
  | .SymActive => 1
  | .SymPassive => 2
  | .Client => 3
  | .Server => 4
  | .Broadcast => 5
  | .NtpControl => 6
  | .ReservedPrivateUse => 7

/-- `impl From<u8> for Mode`.  The source aborts on values above 7
(`panic` arm); this is modelled as `none`. -/
def Mode.fromU8 (value : Nat) : Option Mode :=
  match value with
  | 0 => some .Reserved
  | 1 => some .SymActive
  | 2 => some .SymPassive
  | 3 => some .Client
  | 4 => some .Server
  | 5 => some .Broadcast
  | 6 => some .NtpControl
  | 7 => some .ReservedPrivateUse
  | _ => none

/-- Clock stratum category (`enum Stratum` in the source). -/
inductive Stratum
  | UnspecifiedInvalid
  | PrimaryServer
  | SecondaryServer
  | Unsynchronized
  | Reserved
deriving DecidableEq, Repr

/-- `impl From<u8> for Stratum`: `0`, `1`, the range `2..=15`, `16`, and a
catch-all `_ => Reserved`.  Total on every byte value. -/
def Stratum.fromU8 (value : Nat) : Stratum :=
  if value = 0 then .UnspecifiedInvalid
  else if value = 1 then .PrimaryServer
  else if 2 ≤ value ∧ value ≤ 15 then .SecondaryServer
  else if value = 16 then .Unsynchronized
  else .Reserved

/-- `const UNIX_OFFSET: u32`, seconds between the 1900 and 1970 epochs. -/
def UNIX_OFFSET : Nat := 2208988800

/-- `pub const NTP_PORT: u8 = 123`. -/
def NTP_PORT : Nat := 123

/-- `pub const NTP_VERSION: u8 = 1`. -/
def NTP_VERSION : Nat := 1

/-- The decoded fixed 48-byte NTP header (`struct PacketHeaders`). -/
structure PacketHeaders where
  li : LI
  vn : Nat
  mode : Mode
  stratum : Stratum
  poll : Int
  precision : Int
  root_delay : Nat
  root_dispersion : Nat
  ref_id : Nat
  ref_time : Nat
  origin_time : Nat
  rx_time : Nat
  tx_time_seconds : Nat
  tx_time_fraction : Nat
  dst_time : Nat
  key_id : Nat
  msg_dgst : Nat
deriving DecidableEq, Repr

/-- `PacketHeaders::get_unix_timestamp`: `self.tx_time_seconds - UNIX_OFFSET`
as checked `u32` subtraction; the Rust source aborts on underflow
(arithmetic fault), modelled as `none`. -/
def PacketHeaders.get_unix_timestamp (self : PacketHeaders) : Option Nat :=
  if UNIX_OFFSET ≤ self.tx_time_seconds then
    some (self.tx_time_seconds - UNIX_OFFSET)
  else
    none

/-- `struct ExtensionField`: type, length, and the referenced data byte. -/
structure ExtensionField where
  data_type : Nat
  data_length : Nat
  data : Nat
deriving DecidableEq, Repr

/-- `struct NtpServerResponse`: the headers plus an optional pair of
extension fields (`Option<[ExtensionField; 2]>`). -/
structure NtpServerResponse where
  headers : PacketHeaders
  extension_fields : Option (ExtensionField × ExtensionField)
deriving DecidableEq, Repr

/-- One step of the Rust slice iterator: `iter.next()` yields the next
byte and the rest of the slice, or `none` when exhausted. -/
def next (l : List Nat) : Option (Nat × List Nat) :=
  match l with
  | [] => none
  | b :: rest => some (b, rest)

/-- `fn combine_u8s`: consume four bytes from the iterator and build the
big-endian `u32` value `b0<<24 | b1<<16 | b2<<8 | b3`.  Each `next` is
unwrapped in the source, so exhaustion aborts: modelled as `none`. -/
def combine_u8s (l : List Nat) : Option (Nat × List Nat) :=
  match next l with
  | none => none
  | some (u8_1, l) =>
  match next l with
  | none => none
  | some (u8_2, l) =>
  match next l with
  | none => none
  | some (u8_3, l) =>
  match next l with
  | none => none
  | some (u8_4, l) =>
  some ((u8_1 <<< 24) ||| (u8_2 <<< 16) ||| (u8_3 <<< 8) ||| u8_4, l)

/-- The `u8 as i8` reinterpretation (two's complement) used for poll and
precision. -/
def as_i8 (b : Nat) : Int :=
  if b < 128 then (b : Int) else (b : Int) - 256

/-- `impl From<&[u8]> for NtpServerResponse`: walk the byte slice from the
front with an iterator, extracting every header field in order.  All the
source's `unwrap` calls and the unreachable LI/Mode conversion aborts are
collected into the `Option`. -/
def NtpServerResponse.fromBytes (value : List Nat) : Option NtpServerResponse :=
  match next value with
  | none => none
  | some (li_vn_mode, iter) =>

  -- Extract the first two bits into the LI
  match LI.fromU8 ((li_vn_mode >>> 6) &&& 0b11) with
  | none => none
  | some li =>

  -- Extract the next three bits for the Mode
  match Mode.fromU8 (li_vn_mode &&& 0b111) with
  | none => none
  | some mode =>

  match next iter with
  | none => none
  | some (stratum, iter) =>

  match next iter with
  | none => none
  | some (poll, iter) =>

  match next iter with
  | none => none
  | some (precision, iter) =>

  match combine_u8s iter with
  | none => none
  | some (root_delay, iter) =>

  match combine_u8s iter with
  | none => none
  | some (root_dispersion, iter) =>

  match combine_u8s iter with
  | none => none
  | some (ref_id, iter) =>

  match combine_u8s iter with
  | none => none
  | some (ref_seconds_1, iter) =>
  match combine_u8s iter with
  | none => none
  | some (ref_seconds_2, iter) =>

  match combine_u8s iter with
  | none => none
  | some (orig_seconds_1, iter) =>
  match combine_u8s iter with
  | none => none
  | some (orig_seconds_2, iter) =>

  match combine_u8s iter with
  | none => none
  | some (rx_seconds_1, iter) =>
  match combine_u8s iter with
  | none => none
  | some (rx_seconds_2, iter) =>

  match combine_u8s iter with
  | none => none
  | some (tx_time_seconds, iter) =>
  match combine_u8s iter with
  | none => none
  | some (tx_time_fraction, _iter) =>

  some {
    headers := {
      li := li
      vn := (li_vn_mode >>> 3) &&& 0b111
      mode := mode
      stratum := Stratum.fromU8 stratum
      poll := as_i8 poll
      precision := as_i8 precision
      root_delay := root_delay
      root_dispersion := root_dispersion
      ref_id := ref_id
      ref_time := (ref_seconds_1 <<< 32) ||| ref_seconds_2
      origin_time := (orig_seconds_1 <<< 32) ||| orig_seconds_2
      rx_time := (rx_seconds_1 <<< 32) ||| rx_seconds_2
      tx_time_seconds := tx_time_seconds
      tx_time_fraction := tx_time_fraction
      dst_time := 0
      key_id := 0
      msg_dgst := 0
    }
    extension_fields := none
  }

/-- The test vector of the crate's `test_from_u8` unit test. -/
def c1_buf : List Nat :=
  [36, 3, 0, 232, 0, 0, 5, 139, 0, 0, 0, 39, 10, 72, 8, 222, 232, 139, 229,
   188, 150, 26, 5, 122, 0, 0, 0, 0, 0, 0, 0, 0, 232, 139, 229, 209, 125,
   186, 194, 223, 232, 139, 229, 209, 125, 239, 153, 206]

/-- The decode result the crate's `test_from_u8` unit test expects. -/
def c1_expected : NtpServerResponse where
  headers := {
    li := .NoLeap
    vn := 4
    mode := .Server
    stratum := .SecondaryServer
    poll := 0
    precision := -24
    root_delay := 1419
    root_dispersion := 39
    ref_id := 172493022
    ref_time := 16756739436696962426
    origin_time := 0
    rx_time := 16756739526482379487
    tx_time_seconds := 3901482449
    tx_time_fraction := 2112854478
    dst_time := 0
    key_id := 0
    msg_dgst := 0
  }
  extension_fields := none

/-- A concrete `PacketHeaders` value used to instantiate universally
quantified theorems. -/
def sample_headers : PacketHeaders where
  li := .NoLeap
  vn := 4
  mode := .Server
  stratum := .SecondaryServer
  poll := 0
  precision := -24
  root_delay := 0
  root_dispersion := 0
  ref_id := 0
  ref_time := 0
  origin_time := 0
  rx_time := 0
  tx_time_seconds := 3901482449
  tx_time_fraction := 0
  dst_time := 0
  key_id := 0
  msg_dgst := 0

/-- `fn get_client_request`: a 48-byte zeroed buffer with byte 0 set to
`0b00100011` (LI=0, version=4, mode=3) and bytes 1 to 3 and 12 to 15
explicitly written with zero, mirroring the source's assignments. -/
def get_client_request : List Nat :=
  let buff := List.replicate 48 0
  let buff := buff.set 0 0b00100011
  let buff := buff.set 1 0
  let buff := buff.set 2 0
  let buff := buff.set 3 0
  let buff := buff.set 12 0
  let buff := buff.set 13 0
  let buff := buff.set 14 0
  let buff := buff.set 15 0
  buff

/-- `enum KissCodes`: the 14 named kiss-o'-death codes plus the catch-all
unknown variant. -/
inductive KissCodes
  | UnicastServer
  | AuthFailed
  | AutokeyFailed
  | BroadcastServer
  | CryptoIdAuthFail
  | AccessDenied
  | LostPeerInSymmetricMode
  | AccessRestricted
  | Initializing
  | DynamicallyDiscoveredServer
  | NoKey
  | RateExceeded
  | RemoteAssocAlteration
  | StepTimeChange
  | UnknownKissCode
deriving DecidableEq, Repr

/-- `pub const KISS_CODE_DENY: [u8; 4] = *b"DENY"` as ASCII values. -/
def KISS_CODE_DENY : Nat × Nat × Nat × Nat := (68, 69, 78, 89)

/-- `pub const KISS_CODE_RSTR: [u8; 4] = *b"RSTR"` as ASCII values. -/
def KISS_CODE_RSTR : Nat × Nat × Nat × Nat := (82, 83, 84, 82)

/-- `pub const KISS_CODE_RATE: [u8; 4] = *b"RATE"` as ASCII values. -/
def KISS_CODE_RATE : Nat × Nat × Nat × Nat := (82, 65, 84, 69)

/-- `impl From<&[u8; 4]> for KissCodes`: exact byte-sequence match against
the 14 known 4-byte ASCII codes, in source order (ACST, AUTH, AUTO, BCST,
CRYP, DENY, DROP, RSTR, INIT, MCST, NKEY, RATE, RMOT, STEP), with a
catch-all `_ => UnknownKissCode`.  The Rust match on array literals is an
equality test chain, rendered here as nested conditionals. -/
def KissCodes.fromBytes (value : Nat × Nat × Nat × Nat) : KissCodes :=
  if value = (65, 67, 83, 84) then .UnicastServer
  else if value = (65, 85, 84, 72) then .AuthFailed
  else if value = (65, 85, 84, 79) then .AutokeyFailed
  else if value = (66, 67, 83, 84) then .BroadcastServer
  else if value = (67, 82, 89, 80) then .CryptoIdAuthFail
  else if value = (68, 69, 78, 89) then .AccessDenied
  else if value = (68, 82, 79, 80) then .LostPeerInSymmetricMode
  else if value = (82, 83, 84, 82) then .AccessRestricted
  else if value = (73, 78, 73, 84) then .Initializing
  else if value = (77, 67, 83, 84) then .DynamicallyDiscoveredServer
  else if value = (78, 75, 69, 89) then .NoKey
  else if value = (82, 65, 84, 69) then .RateExceeded
  else if value = (82, 77, 79, 84) then .RemoteAssocAlteration
  else if value = (83, 84, 69, 80) then .StepTimeChange
  else .UnknownKissCode

/-- The 14 known kiss codes, in source order. -/
def knownKissCodes : List (Nat × Nat × Nat × Nat) :=
  [(65, 67, 83, 84), (65, 85, 84, 72), (65, 85, 84, 79), (66, 67, 83, 84),
   (67, 82, 89, 80), (68, 69, 78, 89), (68, 82, 79, 80), (82, 83, 84, 82),
   (73, 78, 73, 84), (77, 67, 83, 84), (78, 75, 69, 89), (82, 65, 84, 69),
   (82, 77, 79, 84), (83, 84, 69, 80)]

/-- Decoding any explicit chain of 48 bytes (with arbitrary trailing bytes)
succeeds and produces the header fields read off the chain, provided the
LI and Mode conversions of the masked byte 0 are given. -/
theorem fromBytes_cons48 (b0 b1 b2 b3 b4 b5 b6 b7 b8 b9 b10 b11 b12 b13 b14 b15 b16 b17 b18 b19 b20 b21 b22 b23 b24 b25 b26 b27 b28 b29 b30 b31 b32 b33 b34 b35 b36 b37 b38 b39 b40 b41 b42 b43 b44 b45 b46 b47 : Nat)
    (rest : List Nat) (li : LI) (mode : Mode)
    (hli : LI.fromU8 ((b0 >>> 6) &&& 0b11) = some li)
    (hmode : Mode.fromU8 (b0 &&& 0b111) = some mode) :
    NtpServerResponse.fromBytes (b0 :: b1 :: b2 :: b3 :: b4 :: b5 :: b6 :: b7 :: b8 :: b9 :: b10 :: b11 :: b12 :: b13 :: b14 :: b15 :: b16 :: b17 :: b18 :: b19 :: b20 :: b21 :: b22 :: b23 :: b24 :: b25 :: b26 :: b27 :: b28 :: b29 :: b30 :: b31 :: b32 :: b33 :: b34 :: b35 :: b36 :: b37 :: b38 :: b39 :: b40 :: b41 :: b42 :: b43 :: b44 :: b45 :: b46 :: b47 :: rest) = some {
      headers := {
        li := li
        vn := (b0 >>> 3) &&& 0b111
        mode := mode
        stratum := Stratum.fromU8 b1
        poll := as_i8 b2
        precision := as_i8 b3
        root_delay := (b4 <<< 24) ||| (b5 <<< 16) ||| (b6 <<< 8) ||| b7
        root_dispersion := (b8 <<< 24) ||| (b9 <<< 16) ||| (b10 <<< 8) ||| b11
        ref_id := (b12 <<< 24) ||| (b13 <<< 16) ||| (b14 <<< 8) ||| b15
        ref_time := (((b16 <<< 24) ||| (b17 <<< 16) ||| (b18 <<< 8) ||| b19) <<< 32) ||| ((b20 <<< 24) ||| (b21 <<< 16) ||| (b22 <<< 8) ||| b23)
        origin_time := (((b24 <<< 24) ||| (b25 <<< 16) ||| (b26 <<< 8) ||| b27) <<< 32) ||| ((b28 <<< 24) ||| (b29 <<< 16) ||| (b30 <<< 8) ||| b31)
        rx_time := (((b32 <<< 24) ||| (b33 <<< 16) ||| (b34 <<< 8) ||| b35) <<< 32) ||| ((b36 <<< 24) ||| (b37 <<< 16) ||| (b38 <<< 8) ||| b39)
        tx_time_seconds := (b40 <<< 24) ||| (b41 <<< 16) ||| (b42 <<< 8) ||| b43
        tx_time_fraction := (b44 <<< 24) ||| (b45 <<< 16) ||| (b46 <<< 8) ||| b47
        dst_time := 0
        key_id := 0
        msg_dgst := 0
      }
      extension_fields := none
    } := by
  simp only [NtpServerResponse.fromBytes, next, combine_u8s, hli, hmode]

/-- The LI conversion succeeds on every value below 4. -/
theorem LI_fromU8_isSome (v : Nat) (hv : v < 4) : (LI.fromU8 v).isSome = true := by
  interval_cases v <;> rfl

/-- The Mode conversion succeeds on every value below 8. -/
theorem Mode_fromU8_isSome (v : Nat) (hv : v < 8) : (Mode.fromU8 v).isSome = true := by
  interval_cases v <;> rfl

/-- A two-bit masked value is below 4. -/
theorem mask2_lt (b : Nat) : (b >>> 6) &&& 0b11 < 4 :=
  Nat.lt_succ_of_le Nat.and_le_right

/-- A three-bit masked value is below 8. -/
theorem mask3_lt (b : Nat) : b &&& 0b111 < 8 :=
  Nat.lt_succ_of_le Nat.and_le_right

/-- Decoding any byte list of length at least 48 succeeds, depends only on
the first 48 bytes, and zeroes the fields that are not on the wire. -/
theorem fromBytes_spec (l : List Nat) (h : 48 <= l.length) :
    ∃ r : NtpServerResponse,
      NtpServerResponse.fromBytes l = some r ∧
      NtpServerResponse.fromBytes (List.take 48 l) = some r ∧
      r.headers.dst_time = 0 ∧ r.headers.key_id = 0 ∧
      r.headers.msg_dgst = 0 ∧ r.extension_fields = none := by
  rcases l with _ | ⟨b0, l⟩; · simp at h
  rcases l with _ | ⟨b1, l⟩; · simp at h
  rcases l with _ | ⟨b2, l⟩; · simp at h
  rcases l with _ | ⟨b3, l⟩; · simp at h
  rcases l with _ | ⟨b4, l⟩; · simp at h
  rcases l with _ | ⟨b5, l⟩; · simp at h
  rcases l with _ | ⟨b6, l⟩; · simp at h
  rcases l with _ | ⟨b7, l⟩; · simp at h
  rcases l with _ | ⟨b8, l⟩; · simp at h
  rcases l with _ | ⟨b9, l⟩; · simp at h
  rcases l with _ | ⟨b10, l⟩; · simp at h
  rcases l with _ | ⟨b11, l⟩; · simp at h
  rcases l with _ | ⟨b12, l⟩; · simp at h
  rcases l with _ | ⟨b13, l⟩; · simp at h
  rcases l with _ | ⟨b14, l⟩; · simp at h
  rcases l with _ | ⟨b15, l⟩; · simp at h
  rcases l with _ | ⟨b16, l⟩; · simp at h
  rcases l with _ | ⟨b17, l⟩; · simp at h
  rcases l with _ | ⟨b18, l⟩; · simp at h
  rcases l with _ | ⟨b19, l⟩; · simp at h
  rcases l with _ | ⟨b20, l⟩; · simp at h
  rcases l with _ | ⟨b21, l⟩; · simp at h
  rcases l with _ | ⟨b22, l⟩; · simp at h
  rcases l with _ | ⟨b23, l⟩; · simp at h
  rcases l with _ | ⟨b24, l⟩; · simp at h
  rcases l with _ | ⟨b25, l⟩; · simp at h
  rcases l with _ | ⟨b26, l⟩; · simp at h
  rcases l with _ | ⟨b27, l⟩; · simp at h
  rcases l with _ | ⟨b28, l⟩; · simp at h
  rcases l with _ | ⟨b29, l⟩; · simp at h
  rcases l with _ | ⟨b30, l⟩; · simp at h
  rcases l with _ | ⟨b31, l⟩; · simp at h
  rcases l with _ | ⟨b32, l⟩; · simp at h
  rcases l with _ | ⟨b33, l⟩; · simp at h
  rcases l with _ | ⟨b34, l⟩; · simp at h
  rcases l with _ | ⟨b35, l⟩; · simp at h
  rcases l with _ | ⟨b36, l⟩; · simp at h
  rcases l with _ | ⟨b37, l⟩; · simp at h
  rcases l with _ | ⟨b38, l⟩; · simp at h
  rcases l with _ | ⟨b39, l⟩; · simp at h
  rcases l with _ | ⟨b40, l⟩; · simp at h
  rcases l with _ | ⟨b41, l⟩; · simp at h
  rcases l with _ | ⟨b42, l⟩; · simp at h
  rcases l with _ | ⟨b43, l⟩; · simp at h
  rcases l with _ | ⟨b44, l⟩; · simp at h
  rcases l with _ | ⟨b45, l⟩; · simp at h
  rcases l with _ | ⟨b46, l⟩; · simp at h
  rcases l with _ | ⟨b47, l⟩; · simp at h
  obtain ⟨li, hli⟩ := Option.isSome_iff_exists.mp (LI_fromU8_isSome _ (mask2_lt b0))
  obtain ⟨mode, hmode⟩ := Option.isSome_iff_exists.mp (Mode_fromU8_isSome _ (mask3_lt b0))
  have htake : List.take 48 (b0 :: b1 :: b2 :: b3 :: b4 :: b5 :: b6 :: b7 :: b8 :: b9 :: b10 :: b11 :: b12 :: b13 :: b14 :: b15 :: b16 :: b17 :: b18 :: b19 :: b20 :: b21 :: b22 :: b23 :: b24 :: b25 :: b26 :: b27 :: b28 :: b29 :: b30 :: b31 :: b32 :: b33 :: b34 :: b35 :: b36 :: b37 :: b38 :: b39 :: b40 :: b41 :: b42 :: b43 :: b44 :: b45 :: b46 :: b47 :: l) = b0 :: b1 :: b2 :: b3 :: b4 :: b5 :: b6 :: b7 :: b8 :: b9 :: b10 :: b11 :: b12 :: b13 :: b14 :: b15 :: b16 :: b17 :: b18 :: b19 :: b20 :: b21 :: b22 :: b23 :: b24 :: b25 :: b26 :: b27 :: b28 :: b29 :: b30 :: b31 :: b32 :: b33 :: b34 :: b35 :: b36 :: b37 :: b38 :: b39 :: b40 :: b41 :: b42 :: b43 :: b44 :: b45 :: b46 :: b47 :: ([] : List Nat) := rfl
  refine ⟨_, fromBytes_cons48 b0 b1 b2 b3 b4 b5 b6 b7 b8 b9 b10 b11 b12 b13 b14 b15 b16 b17 b18 b19 b20 b21 b22 b23 b24 b25 b26 b27 b28 b29 b30 b31 b32 b33 b34 b35 b36 b37 b38 b39 b40 b41 b42 b43 b44 b45 b46 b47 l li mode hli hmode, ?_, rfl, rfl, rfl, rfl⟩
  rw [htake]
  exact fromBytes_cons48 b0 b1 b2 b3 b4 b5 b6 b7 b8 b9 b10 b11 b12 b13 b14 b15 b16 b17 b18 b19 b20 b21 b22 b23 b24 b25 b26 b27 b28 b29 b30 b31 b32 b33 b34 b35 b36 b37 b38 b39 b40 b41 b42 b43 b44 b45 b46 b47 ([] : List Nat) li mode hli hmode

/-- C1: Decoding the 48-byte test buffer yields a header with li=NoLeap,
version=4, mode=Server, stratum=SecondaryServer, poll=0, precision=-24,
root_delay=1419, root_dispersion=39, ref_id=172493022,
tx_time_seconds=3901482449, and `get_unix_timestamp` on that header
returns 1692493649. -/
theorem c1_decode_test_vector :
    NtpServerResponse.fromBytes c1_buf = some c1_expected ∧
    c1_expected.headers.li = .NoLeap ∧
    c1_expected.headers.vn = 4 ∧
    c1_expected.headers.mode = .Server ∧
    c1_expected.headers.stratum = .SecondaryServer ∧
    c1_expected.headers.poll = 0 ∧
    c1_expected.headers.precision = -24 ∧
    c1_expected.headers.root_delay = 1419 ∧
    c1_expected.headers.root_dispersion = 39 ∧
    c1_expected.headers.ref_id = 172493022 ∧
    c1_expected.headers.tx_time_seconds = 3901482449 ∧
    c1_expected.headers.get_unix_timestamp = some 1692493649 := by
  refine ⟨?_, rfl, rfl, rfl, rfl, rfl, rfl, rfl, rfl, rfl, rfl, ?_⟩
  · decide
  · decide

/-- C2: For every header, when `tx_time_seconds` is at least the epoch
offset 2208988800, `get_unix_timestamp` returns exactly
`tx_time_seconds - 2208988800`; for smaller values the operation fails
(the checked subtraction aborts) rather than silently wrapping. -/
theorem c2_unix_conversion (hd : PacketHeaders) :
    (UNIX_OFFSET ≤ hd.tx_time_seconds →
      hd.get_unix_timestamp = some (hd.tx_time_seconds - UNIX_OFFSET)) ∧
    (hd.tx_time_seconds < UNIX_OFFSET → hd.get_unix_timestamp = none) := by
  constructor <;> intro hh
  · simp [PacketHeaders.get_unix_timestamp, hh]
  · simp [PacketHeaders.get_unix_timestamp, Nat.not_le.mpr hh]

/-- Witness for C2, at a concrete header with a post-1970 transmit time. -/
theorem c2_witness :
    UNIX_OFFSET ≤ sample_headers.tx_time_seconds ∧
    sample_headers.get_unix_timestamp =
      some (sample_headers.tx_time_seconds - UNIX_OFFSET) :=
  ⟨by decide, (c2_unix_conversion sample_headers).1 (by decide)⟩

/-- C3: Every input of length at least 48 decodes successfully (no
iterator exhaustion), the result depends only on the first 48 bytes, and
the LI and Mode conversions are total on the masked byte-0 extractions,
so their unreachable arms never fire. -/
theorem c3_decode_total (l : List Nat) (h : 48 ≤ l.length) :
    (NtpServerResponse.fromBytes l).isSome = true ∧
    NtpServerResponse.fromBytes l = NtpServerResponse.fromBytes (List.take 48 l) ∧
    ∀ b : Nat, (LI.fromU8 ((b >>> 6) &&& 0b11)).isSome = true ∧
      (Mode.fromU8 (b &&& 0b111)).isSome = true := by
  obtain ⟨r, h1, h2, -, -, -, -⟩ := fromBytes_spec l h
  exact ⟨by rw [h1]; rfl, by rw [h1, h2],
    fun b => ⟨LI_fromU8_isSome _ (mask2_lt b), Mode_fromU8_isSome _ (mask3_lt b)⟩⟩

/-- Witness for C3, at the all-zero 48-byte input. -/
theorem c3_witness :
    48 ≤ (List.replicate 48 (0 : Nat)).length ∧
    (NtpServerResponse.fromBytes (List.replicate 48 (0 : Nat))).isSome = true :=
  ⟨by decide, (c3_decode_total (List.replicate 48 (0 : Nat)) (by decide)).1⟩

/-- C4: `get_client_request` returns a 48-byte buffer whose byte 0 is
`0b00100011` and whose other 47 bytes, bytes 12 to 15 included, are zero. -/
theorem c4_client_request :
    get_client_request.length = 48 ∧
    get_client_request.getD 0 255 = 0b00100011 ∧
    get_client_request = 0b00100011 :: List.replicate 47 0 ∧
    (∀ i : Nat, 1 ≤ i → i < 48 → get_client_request.getD i 255 = 0) := by
  refine ⟨by decide, by decide, by decide, ?_⟩
  intro i h1 h2
  interval_cases i <;> decide

/-- Witness for C4, at byte 12 of the origin-timestamp field. -/
theorem c4_witness :
    1 ≤ 12 ∧ 12 < 48 ∧ get_client_request.getD 12 255 = 0 :=
  ⟨by decide, by decide, c4_client_request.2.2.2 12 (by decide) (by decide)⟩

/-- C5: The LI codec round-trips every value in 0..3 and the Mode codec
round-trips every value in 0..7. -/
theorem c5_li_mode_roundtrip :
    (∀ v : Nat, v < 4 → (LI.fromU8 v).map LI.toU8 = some v) ∧
    (∀ v : Nat, v < 8 → (Mode.fromU8 v).map Mode.toU8 = some v) := by
  constructor <;> intro v hv
  · interval_cases v <;> rfl
  · interval_cases v <;> rfl

/-- Witness for C5, round-tripping LI value 3. -/
theorem c5_witness :
    (3 : Nat) < 4 ∧ (LI.fromU8 3).map LI.toU8 = some 3 :=
  ⟨by decide, c5_li_mode_roundtrip.1 3 (by decide)⟩

/-- C6: The Stratum codec is total on bytes: 0 maps to
unspecified/invalid, 1 to primary server, all of 2..15 to secondary
server, 16 to unsynchronized, and all of 17..255 to reserved. -/
theorem c6_stratum_total :
    Stratum.fromU8 0 = .UnspecifiedInvalid ∧
    Stratum.fromU8 1 = .PrimaryServer ∧
    (∀ v : Nat, 2 ≤ v → v ≤ 15 → Stratum.fromU8 v = .SecondaryServer) ∧
    Stratum.fromU8 16 = .Unsynchronized ∧
    (∀ v : Nat, 17 ≤ v → v ≤ 255 → Stratum.fromU8 v = .Reserved) := by
  refine ⟨by decide, by decide, ?_, by decide, ?_⟩ <;> intro v h1 h2
  · interval_cases v <;> decide
  · interval_cases v <;> decide

/-- Witness for C6, at the lower boundary stratum 2. -/
theorem c6_witness :
    (2 : Nat) ≤ 2 ∧ (2 : Nat) ≤ 15 ∧ Stratum.fromU8 2 = .SecondaryServer :=
  ⟨by decide, by decide, c6_stratum_total.2.2.1 2 (by decide) (by decide)⟩

/-- C7: The kiss-code lookup is total: DENY, RSTR and RATE map to three
distinct named variants, each of the 14 known codes maps to its own
variant, and every other 4-byte sequence maps to the unknown variant. -/
theorem c7_kiss_codes :
    KissCodes.fromBytes KISS_CODE_DENY = .AccessDenied ∧
    KissCodes.fromBytes KISS_CODE_RSTR = .AccessRestricted ∧
    KissCodes.fromBytes KISS_CODE_RATE = .RateExceeded ∧
    (KissCodes.AccessDenied ≠ KissCodes.AccessRestricted ∧
     KissCodes.AccessDenied ≠ KissCodes.RateExceeded ∧
     KissCodes.AccessRestricted ≠ KissCodes.RateExceeded) ∧
    (KissCodes.fromBytes (65, 67, 83, 84) = .UnicastServer ∧
     KissCodes.fromBytes (65, 85, 84, 72) = .AuthFailed ∧
     KissCodes.fromBytes (65, 85, 84, 79) = .AutokeyFailed ∧
     KissCodes.fromBytes (66, 67, 83, 84) = .BroadcastServer ∧
     KissCodes.fromBytes (67, 82, 89, 80) = .CryptoIdAuthFail ∧
     KissCodes.fromBytes (68, 69, 78, 89) = .AccessDenied ∧
     KissCodes.fromBytes (68, 82, 79, 80) = .LostPeerInSymmetricMode ∧
     KissCodes.fromBytes (82, 83, 84, 82) = .AccessRestricted ∧
     KissCodes.fromBytes (73, 78, 73, 84) = .Initializing ∧
     KissCodes.fromBytes (77, 67, 83, 84) = .DynamicallyDiscoveredServer ∧
     KissCodes.fromBytes (78, 75, 69, 89) = .NoKey ∧
     KissCodes.fromBytes (82, 65, 84, 69) = .RateExceeded ∧
     KissCodes.fromBytes (82, 77, 79, 84) = .RemoteAssocAlteration ∧
     KissCodes.fromBytes (83, 84, 69, 80) = .StepTimeChange) ∧
    (∀ v : Nat × Nat × Nat × Nat, v ∉ knownKissCodes →
      KissCodes.fromBytes v = .UnknownKissCode) := by
  refine ⟨by decide, by decide, by decide, by decide, by decide, ?_⟩
  intro v hv
  simp only [knownKissCodes, List.mem_cons, List.not_mem_nil, or_false,
    not_or] at hv
  obtain ⟨h1, h2, h3, h4, h5, h6, h7, h8, h9, h10, h11, h12, h13, h14⟩ := hv
  simp only [KissCodes.fromBytes, if_neg h1, if_neg h2, if_neg h3, if_neg h4,
    if_neg h5, if_neg h6, if_neg h7, if_neg h8, if_neg h9, if_neg h10,
    if_neg h11, if_neg h12, if_neg h13, if_neg h14]

/-- Witness for C7, at a 4-byte sequence outside the known table. -/
theorem c7_witness :
    ((0, 0, 0, 0) : Nat × Nat × Nat × Nat) ∉ knownKissCodes ∧
    KissCodes.fromBytes (0, 0, 0, 0) = .UnknownKissCode :=
  ⟨by decide, c7_kiss_codes.2.2.2.2.2 (0, 0, 0, 0) (by decide)⟩

/-- C8: Every decode of an input of length at least 48 yields `dst_time`,
`key_id` and `msg_dgst` equal to 0 and `extension_fields` equal to none,
whatever the input bytes. -/
theorem c8_nonwire_fields_zero (l : List Nat) (h : 48 ≤ l.length) :
    (NtpServerResponse.fromBytes l).map
      (fun r => (r.headers.dst_time, r.headers.key_id, r.headers.msg_dgst,
                 r.extension_fields)) = some (0, 0, 0, none) := by
  obtain ⟨r, h1, -, h3, h4, h5, h6⟩ := fromBytes_spec l h
  rw [h1]
  simp [h3, h4, h5, h6]

/-- Witness for C8, at a 49-byte all-ones input. -/
theorem c8_witness :
    48 ≤ (List.replicate 49 (1 : Nat)).length ∧
    (NtpServerResponse.fromBytes (List.replicate 49 (1 : Nat))).map
      (fun r => (r.headers.dst_time, r.headers.key_id, r.headers.msg_dgst,
                 r.extension_fields)) = some (0, 0, 0, none) :=
  ⟨by decide, c8_nonwire_fields_zero (List.replicate 49 (1 : Nat)) (by decide)⟩

/-- C9: `combine_u8s` on a cursor holding bytes b0, b1, b2, b3 consumes
exactly those four bytes and yields `b0<<24 | b1<<16 | b2<<8 | b3`; on a
cursor with fewer than four bytes it fails. -/
theorem c9_combine_spec (b0 b1 b2 b3 : Nat) (rest : List Nat) :
    combine_u8s (b0 :: b1 :: b2 :: b3 :: rest) =
      some ((b0 <<< 24) ||| (b1 <<< 16) ||| (b2 <<< 8) ||| b3, rest) ∧
    (∀ l : List Nat, l.length < 4 → combine_u8s l = none) := by
  refine ⟨rfl, ?_⟩
  intro l hl
  rcases l with _ | ⟨a, l⟩; · rfl
  rcases l with _ | ⟨b, l⟩; · rfl
  rcases l with _ | ⟨c, l⟩; · rfl
  rcases l with _ | ⟨d, l⟩; · rfl
  simp only [List.length_cons] at hl
  omega

/-- Witness for C9, on the root-delay bytes of the test vector and on a
one-byte cursor. -/
theorem c9_witness :
    ([0] : List Nat).length < 4 ∧ combine_u8s [0] = none :=
  ⟨by decide, (c9_combine_spec 0 0 5 139 []).2 [0] (by decide)⟩

/-- C10: The exposed constant `NTP_VERSION` is 1, which differs from the
version number 4 that `get_client_request` encodes into bits 5 to 3 of
byte 0 of the outbound request. -/
theorem c10_version_constant_mismatch :
    NTP_VERSION = 1 ∧
    (get_client_request.getD 0 0 >>> 3) &&& 0b111 = 4 ∧
    NTP_VERSION ≠ (get_client_request.getD 0 0 >>> 3) &&& 0b111 := by
  refine ⟨rfl, by decide, by decide⟩
